import Mathlib

/-!
Verification of the GeminiVoiceAgent repository core: the defensive
response extractor `extract_text_from_response` and the request handler
`api_chat` from `new.py`, and `genai_response` from `GPTraw.py`.

The embedding models Python values as the inductive type `PyVal`
(None, str, int, list/tuple, dict with string keys, and objects carrying
a string-keyed attribute table).  Fallible Python operations (subscripting,
attribute access without a default, the `in` operator on a non-container)
are modelled in `Except Unit`, where `Except.error ()` stands for a raised
exception; the `try/except` blocks of the source become matches on that
result.  `reprPy` models str(): its exact output text for lists, dicts and
objects is a fixed deterministic rendering (Python renders an object
address there), and no theorem below depends on that text, only on the
fact that the fallback equals the result of `reprPy`.
-/

/-- A Python value as far as the repository manipulates one: None, a
string, an integer, a list (or tuple), a dict with string keys, or an
object exposing a table of named attributes. -/
inductive PyVal where
  | none : PyVal
  | str : String → PyVal
  | int : Int → PyVal
  | list : List PyVal → PyVal
  | dict : List (String × PyVal) → PyVal
  | obj : List (String × PyVal) → PyVal

/-- First-match lookup in a string-keyed association list, used for dict
key lookup and object attribute lookup (Python dict keys are unique, so
first-match agrees with dict semantics on well-formed values). -/
def lookupStr : List (String × PyVal) → String → Option PyVal
  | [], _ => Option.none
  | (k, v) :: rest, key => if k = key then Option.some v else lookupStr rest key

/-- Python truthiness: None is falsy, a string, list or dict is truthy if
non-empty, an integer is truthy if non-zero, and a plain object is truthy. -/
def truthy : PyVal → Bool
  | PyVal.none => false
  | PyVal.str s => !s.isEmpty
  | PyVal.int n => n != 0
  | PyVal.list xs => !xs.isEmpty
  | PyVal.dict kvs => !kvs.isEmpty
  | PyVal.obj _ => true

/-- getattr(v, name, None): the attribute value on an object carrying it,
None otherwise (strings, ints, lists, dicts and None expose none of the
attribute names the source probes). -/
def getattrOpt (v : PyVal) (name : String) : PyVal :=
  match v with
  | PyVal.obj attrs => (lookupStr attrs name).getD PyVal.none
  | _ => PyVal.none

/-- hasattr(v, name). -/
def hasattrPy (v : PyVal) (name : String) : Bool :=
  match v with
  | PyVal.obj attrs => (lookupStr attrs name).isSome
  | _ => false

/-- v[0]: first element of a non-empty list, first character of a
non-empty string; anything else raises (IndexError, KeyError on a
string-keyed dict, or TypeError). -/
def index0 : PyVal → Except Unit PyVal
  | PyVal.list (x :: _) => Except.ok x
  | PyVal.str s =>
      if s.isEmpty then Except.error () else Except.ok (PyVal.str (String.singleton s.front))
  | _ => Except.error ()

mutual

/-- str(v), modelled deterministically; see the module comment. -/
def reprAux : Bool → PyVal → String
  | q, PyVal.str s => if q then "\x27" ++ s ++ "\x27" else s
  | _, PyVal.none => "None"
  | _, PyVal.int n => toString n
  | _, PyVal.list xs => "[" ++ reprElems xs ++ "]"
  | _, PyVal.dict kvs => "\x7b" ++ reprPairs kvs ++ "\x7d"
  | _, PyVal.obj _ => "<object>"

/-- Comma-separated rendering of list elements, strings quoted. -/
def reprElems : List PyVal → String
  | [] => ""
  | [v] => reprAux true v
  | v :: vs => reprAux true v ++ ", " ++ reprElems vs

/-- Comma-separated rendering of dict entries, strings quoted. -/
def reprPairs : List (String × PyVal) → String
  | [] => ""
  | [(k, v)] => "\x27" ++ k ++ "\x27: " ++ reprAux true v
  | (k, v) :: kvs => "\x27" ++ k ++ "\x27: " ++ reprAux true v ++ ", " ++ reprPairs kvs

end

/-- str(v) as the source calls it (top level, unquoted strings). -/
def reprPy (v : PyVal) : String := reprAux false v

/-- The body of the inner content probe of `extract_text_from_response`
(new.py lines 247-259): given the value of first.content, if it is truthy
and a non-empty list or tuple, examine its first element: an object with a
text attribute yields that attribute, a dict with a "text" key yields that
entry, a plain string yields itself; everything else finds nothing. -/
def contentAttempt (content : PyVal) : Option PyVal :=
  if truthy content then
    match content with
    | PyVal.list (c0 :: _) =>
        if hasattrPy c0 "text" then Option.some (getattrOpt c0 "text")
        else
          match c0 with
          | PyVal.dict kvs =>
              match lookupStr kvs "text" with
              | Option.some t => Option.some t
              | Option.none => Option.none
          | PyVal.str s => Option.some (PyVal.str s)
          | _ => Option.none
    | _ => Option.none
  else Option.none

/-- The attribute-based candidates probe of `extract_text_from_response`
(new.py lines 238-261): if the candidates value is truthy, index it; a
first candidate with an output_text attribute yields that attribute,
otherwise its content attribute is examined by `contentAttempt`.  The
whole probe sits in try/except pass, so an indexing failure finds
nothing instead of raising. -/
def objCandAttempt (candidates : PyVal) : Option PyVal :=
  if truthy candidates then
    match index0 candidates with
    | Except.error _ => Option.none
    | Except.ok first =>
        if hasattrPy first "output_text" then Option.some (getattrOpt first "output_text")
        else contentAttempt (getattrOpt first "content")
  else Option.none

/-- The mapping-based candidates probe of `extract_text_from_response`
(new.py lines 263-275): only for a dict input with a truthy "candidates"
entry.  Unlike the attribute probe this one is NOT wrapped in its own
try/except, so indexing a truthy non-indexable candidates value raises
out to the outer handler (modelled as `Except.error`). -/
def dictCandAttempt (resp : PyVal) : Except Unit (Option PyVal) :=
  match resp with
  | PyVal.dict kvs =>
    match lookupStr kvs "candidates" with
    | Option.some cval =>
      if truthy cval then
        match index0 cval with
        | Except.error e => Except.error e
        | Except.ok cand =>
          match cand with
          | PyVal.dict ckvs =>
            match lookupStr ckvs "output_text" with
            | Option.some v => Except.ok (Option.some v)
            | Option.none =>
              match lookupStr ckvs "content" with
              | Option.some (PyVal.list (c0 :: _)) =>
                  match c0 with
                  | PyVal.dict c0kvs =>
                    match lookupStr c0kvs "text" with
                    | Option.some t => Except.ok (Option.some t)
                    | Option.none => Except.ok Option.none
                  | PyVal.str s => Except.ok (Option.some (PyVal.str s))
                  | _ => Except.ok Option.none
              | _ => Except.ok Option.none
          | _ => Except.ok Option.none
      else Except.ok Option.none
    | Option.none => Except.ok Option.none
  | _ => Except.ok Option.none

/-- The remainder of the outer try of `extract_text_from_response` after
the None and string early returns (new.py lines 234-277), in statement
order: a truthy text attribute is returned; then the attribute candidates
probe, then the dict candidates probe (whose indexing may raise), and
finally str(resp). -/
def extractTail (resp : PyVal) : Except Unit PyVal :=
  if truthy (getattrOpt resp "text") then Except.ok (getattrOpt resp "text")
  else
    match objCandAttempt (getattrOpt resp "candidates") with
    | Option.some v => Except.ok v
    | Option.none =>
      match dictCandAttempt resp with
      | Except.error e => Except.error e
      | Except.ok (Option.some v) => Except.ok v
      | Except.ok Option.none => Except.ok (PyVal.str (reprPy resp))

/-- The body of the outer try of `extract_text_from_response` (new.py
lines 227-277): None input returns None, a string returns itself, then
`extractTail`. -/
def extractBody (resp : PyVal) : Except Unit PyVal :=
  match resp with
  | PyVal.none => Except.ok PyVal.none
  | PyVal.str s => Except.ok (PyVal.str s)
  | _ => extractTail resp

/-- str(resp) as the except handler calls it; in this value model the
conversion itself cannot raise. -/
def strPy (resp : PyVal) : Except Unit String := Except.ok (reprPy resp)

/-- extract_text_from_response (new.py lines 222-282): the body wrapped
in the outer except handler, which falls back to str(resp) and, were that
to raise too, to the fixed placeholder string. -/
def extract_text_from_response (resp : PyVal) : PyVal :=
  match extractBody resp with
  | Except.ok v => v
  | Except.error _ =>
    match strPy resp with
    | Except.ok s => PyVal.str s
    | Except.error _ => PyVal.str "(unable to extract text)"

/-- The `in` operator, `key in container`, for a string key: dict key
membership, substring test on a string, element equality on a list;
a TypeError on None, an integer or a plain object. -/
def pyContains (container : PyVal) (key : String) : Except Unit Bool :=
  match container with
  | PyVal.dict kvs => Except.ok (lookupStr kvs key).isSome
  | PyVal.str s =>
      Except.ok (if key.isEmpty then true else decide (2 ≤ (s.splitOn key).length))
  | PyVal.list xs =>
      Except.ok (xs.any fun v =>
        match v with
        | PyVal.str t => t == key
        | _ => false)
  | _ => Except.error ()

/-- Subscripting with a string key, `container[key]`: a dict yields the
entry or raises KeyError; every other value raises TypeError. -/
def pyGetItem (container : PyVal) (key : String) : Except Unit PyVal :=
  match container with
  | PyVal.dict kvs =>
    match lookupStr kvs key with
    | Option.some v => Except.ok v
    | Option.none => Except.error ()
  | _ => Except.error ()

/-- Plain attribute access `v.name` with no default: the attribute on an
object carrying it, AttributeError otherwise. -/
def pyGetAttr (v : PyVal) (name : String) : Except Unit PyVal :=
  match v with
  | PyVal.obj attrs =>
    match lookupStr attrs name with
    | Option.some a => Except.ok a
    | Option.none => Except.error ()
  | _ => Except.error ()

/-- The whitespace characters str.strip() removes by default: exactly
those str.isspace() accepts — the ASCII whitespace characters space,
tab, newline, carriage return, \x0b and \x0c, the separator control
characters \x1c-\x1f, next line \x85, no-break space \xa0, and the
Unicode space characters u1680, u2000-u200a, the line and paragraph
separators u2028 and u2029, u202f, u205f and u3000. -/
def isSpaceChar (c : Char) : Bool :=
  c == ' ' || c == '\t' || c == '\n' || c == '\r' || c == '\x0b' || c == '\x0c' ||
  (0x1c ≤ c.toNat && c.toNat ≤ 0x1f) || c == '\x85' || c == '\xa0' ||
  c == '\u1680' || (0x2000 ≤ c.toNat && c.toNat ≤ 0x200a) ||
  c == '\u2028' || c == '\u2029' || c == '\u202f' || c == '\u205f' || c == '\u3000'

/-- Drop leading whitespace characters from a character list. -/
def dropSpaces : List Char → List Char
  | [] => []
  | c :: cs => if isSpaceChar c then dropSpaces cs else c :: cs

/-- str.strip(): remove leading and trailing whitespace. -/
def stripPy (s : String) : String :=
  String.mk (dropSpaces (dropSpaces s.data).reverse).reverse

/-- The process-wide configuration of the Flask variant as `api_chat`
reads it: the USE_MOCK flag, the DEBUG flag, and whether the module-level
model handle was initialised (model is not None). -/
structure ChatConfig where
  use_mock : Bool
  debug : Bool
  model_init : Bool

/-- jsonify(\x7b"error": msg\x7d). -/
def errBody (msg : String) : PyVal := PyVal.dict [("error", PyVal.str msg)]

/-- jsonify(\x7b"reply": v\x7d). -/
def replyBody (v : PyVal) : PyVal := PyVal.dict [("reply", v)]

/-- The 400 body for an absent message field. -/
def missingMsg : String := "Missing \x27message\x27 field."

/-- The 400 body for a blank message. -/
def emptyMsg : String := "Empty message."

/-- The 500 body when the model handle is None. -/
def modelNotInitMsg : String := "Model not initialized. Check server logs and API key."

/-- api_chat (new.py lines 288-315).  `data` is the parsed JSON request
body, with `PyVal.none` standing for request.get_json(silent=True)
returning None; `generate_content` is the model call, returning a
response value or raising with a message string.  The result is the
(status, body) pair of the Flask response, or `Except.error` when the
handler lets an exception escape (Flask then produces its own 500 page):
the only such points are `"message" not in data` and `data["message"]`
on a truthy non-dict body, which sit before the try block. -/
def api_chat (cfg : ChatConfig) (generate_content : PyVal → Except String PyVal)
    (data : PyVal) : Except Unit (Nat × PyVal) :=
  if !truthy data then Except.ok (400, errBody missingMsg)
  else
    match pyContains data "message" with
    | Except.error e => Except.error e
    | Except.ok has =>
      if !has then Except.ok (400, errBody missingMsg)
      else
        match pyGetItem data "message" with
        | Except.error e => Except.error e
        | Except.ok user_message =>
          if !truthy user_message || stripPy (reprPy user_message) == "" then
            Except.ok (400, errBody emptyMsg)
          else if cfg.use_mock then
            Except.ok (200, replyBody (PyVal.str ("(mock) I received: " ++ reprPy user_message)))
          else if !cfg.model_init then
            Except.ok (500, errBody modelNotInitMsg)
          else
            match generate_content user_message with
            | Except.error e =>
                Except.ok (500, errBody (if cfg.debug then e else "Model error"))
            | Except.ok resp =>
                Except.ok (200, replyBody (extract_text_from_response resp))

/-- genai_response (GPTraw.py lines 51-57): call the model and read
response.text; any exception from either step is caught and replaced by
the fixed spoken error reply. -/
def genai_response (generate_content : PyVal → Except String PyVal)
    (prompt : PyVal) : PyVal :=
  match
    (match generate_content prompt with
     | Except.error _ => Except.error ()
     | Except.ok response => pyGetAttr response "text") with
  | Except.ok t => t
  | Except.error _ =>
      PyVal.str "Sorry, I encountered an error processing your request."

/-! ## Theorems -/

/-- Helper: when the direct probes all fail and the dict probe finds no
text, the result is str(resp), whether the dict probe fell through or
raised into the outer handler. -/
theorem extract_tail_fallback (resp : PyVal)
    (h2 : truthy (getattrOpt resp "text") = false)
    (h3 : objCandAttempt (getattrOpt resp "candidates") = Option.none)
    (h4 : ∀ v, dictCandAttempt resp ≠ Except.ok (Option.some v))
    (hb : extractBody resp = extractTail resp) :
    extract_text_from_response resp = PyVal.str (reprPy resp) := by
  cases hd : dictCandAttempt resp with
  | error e =>
      simp [extract_text_from_response, hb, extractTail, h2, h3, hd, strPy]
  | ok o =>
      cases o with
      | none => simp [extract_text_from_response, hb, extractTail, h2, h3, hd]
      | some v => exact absurd hd (h4 v)

/-- Claim C1: for every input value, extract_text_from_response returns
normally (it is a total function of the input) and never raises: any
internal failure of the extraction body is caught and converted to a
best-effort fallback, the string representation of the input or the
fixed placeholder string. -/
theorem extract_handles_internal_failure (resp : PyVal) (e : Unit)
    (h : extractBody resp = Except.error e) :
    extract_text_from_response resp = PyVal.str (reprPy resp) ∨
    extract_text_from_response resp = PyVal.str "(unable to extract text)" := by
  left
  simp [extract_text_from_response, h, strPy]

/-- Witness for C1 at a concrete failing input: a dict whose candidates
entry is a truthy dict, so the unprotected `resp["candidates"][0]` of the
mapping branch raises, and the handler falls back to str(resp). -/
theorem extract_handles_internal_failure_witness :
    extractBody (PyVal.dict [("candidates", PyVal.dict [("x", PyVal.int 1)])]) =
      Except.error () ∧
    (extract_text_from_response (PyVal.dict [("candidates", PyVal.dict [("x", PyVal.int 1)])]) =
        PyVal.str (reprPy (PyVal.dict [("candidates", PyVal.dict [("x", PyVal.int 1)])])) ∨
      extract_text_from_response (PyVal.dict [("candidates", PyVal.dict [("x", PyVal.int 1)])]) =
        PyVal.str "(unable to extract text)") :=
  ⟨rfl, extract_handles_internal_failure _ () rfl⟩

/-- Counterexample to Claim C2 as stated: the input None is not a plain
string, exposes no usable text field and carries no usable candidates
structure, yet extract_text_from_response returns None, not the generic
string representation of the input. -/
theorem extract_none_not_string_fallback :
    getattrOpt PyVal.none "text" = PyVal.none ∧
    getattrOpt PyVal.none "candidates" = PyVal.none ∧
    extract_text_from_response PyVal.none = PyVal.none ∧
    extract_text_from_response PyVal.none ≠ PyVal.str (reprPy PyVal.none) :=
  ⟨rfl, rfl, rfl, fun h => nomatch h⟩

/-- Claim C2 (amended: the input must also not be None, which the code
returns unchanged before any extraction attempt): for every input on
which no extraction attempt succeeds, extract_text_from_response returns
the generic string representation of the input. -/
theorem extract_fallback_of_all_attempts_fail (resp : PyVal)
    (h0 : resp ≠ PyVal.none) (h1 : ∀ s, resp ≠ PyVal.str s)
    (h2 : truthy (getattrOpt resp "text") = false)
    (h3 : objCandAttempt (getattrOpt resp "candidates") = Option.none)
    (h4 : ∀ v, dictCandAttempt resp ≠ Except.ok (Option.some v)) :
    extract_text_from_response resp = PyVal.str (reprPy resp) := by
  cases resp with
  | none => exact absurd rfl h0
  | str s => exact absurd rfl (h1 s)
  | int n => exact extract_tail_fallback _ h2 h3 h4 rfl
  | list xs => exact extract_tail_fallback _ h2 h3 h4 rfl
  | dict kvs => exact extract_tail_fallback _ h2 h3 h4 rfl
  | obj attrs => exact extract_tail_fallback _ h2 h3 h4 rfl

/-- Witness for the amended C2 at a concrete input: an integer matches
no extraction attempt and comes back as its string representation. -/
theorem extract_fallback_of_all_attempts_fail_witness :
    extract_text_from_response (PyVal.int 7) = PyVal.str (reprPy (PyVal.int 7)) :=
  extract_fallback_of_all_attempts_fail (PyVal.int 7)
    (fun h => nomatch h) (fun _ h => nomatch h) rfl rfl
    (fun _ h => nomatch h)

/-- Claim C3: an input shaped candidates -> first -> content -> first ->
text, whether built from objects with attributes or from dicts with
string keys, extracts exactly that text value. -/
theorem extract_candidates_content_text (x : String) :
    extract_text_from_response
      (PyVal.obj [("candidates", PyVal.list
        [PyVal.obj [("content", PyVal.list [PyVal.obj [("text", PyVal.str x)]])]])]) =
      PyVal.str x ∧
    extract_text_from_response
      (PyVal.dict [("candidates", PyVal.list
        [PyVal.dict [("content", PyVal.list [PyVal.dict [("text", PyVal.str x)]])]])]) =
      PyVal.str x :=
  ⟨rfl, rfl⟩

/-- Claim C4: an input whose first candidate exposes output_text yields
that value, for every possible list of later candidates (object and dict
forms), and a first content element with text is taken for every possible
tail of later content elements: elements after the first are never
examined. -/
theorem extract_first_candidate_output_text (y : String) (rest crest : List PyVal) :
    extract_text_from_response
      (PyVal.obj [("candidates", PyVal.list
        (PyVal.obj [("output_text", PyVal.str y)] :: rest))]) = PyVal.str y ∧
    extract_text_from_response
      (PyVal.dict [("candidates", PyVal.list
        (PyVal.dict [("output_text", PyVal.str y)] :: rest))]) = PyVal.str y ∧
    extract_text_from_response
      (PyVal.obj [("candidates", PyVal.list
        (PyVal.obj [("content", PyVal.list
          (PyVal.obj [("text", PyVal.str y)] :: crest))] :: rest))]) = PyVal.str y ∧
    extract_text_from_response
      (PyVal.dict [("candidates", PyVal.list
        (PyVal.dict [("content", PyVal.list
          (PyVal.dict [("text", PyVal.str y)] :: crest))] :: rest))]) = PyVal.str y :=
  ⟨rfl, rfl, rfl, rfl⟩

/-- Claim C5: an input object exposing a direct text attribute with a
truthy (non-empty) value comes back as exactly that value, whatever
other fields the object carries. -/
theorem extract_direct_text_attr (resp : PyVal)
    (h : truthy (getattrOpt resp "text") = true) :
    extract_text_from_response resp = getattrOpt resp "text" := by
  cases resp with
  | none => simp [getattrOpt, truthy] at h
  | str s => simp [getattrOpt, truthy] at h
  | int n => simp [getattrOpt, truthy] at h
  | list xs => simp [getattrOpt, truthy] at h
  | dict kvs => simp [getattrOpt, truthy] at h
  | obj attrs => simp [extract_text_from_response, extractBody, extractTail, h]

/-- Witness for C5 at a concrete input: an object with both a text
attribute and a candidates list returns the text attribute. -/
theorem extract_direct_text_attr_witness :
    extract_text_from_response
      (PyVal.obj [("text", PyVal.str "hi"),
        ("candidates", PyVal.list [PyVal.obj [("output_text", PyVal.str "other")]])]) =
      getattrOpt
        (PyVal.obj [("text", PyVal.str "hi"),
          ("candidates", PyVal.list [PyVal.obj [("output_text", PyVal.str "other")]])])
        "text" :=
  extract_direct_text_attr _ rfl

/-- Claim C9: extract_text_from_response applied to None returns None,
a value that is not a string, so neither the string-representation
fallback nor the fixed placeholder is produced for it. -/
theorem extract_none_returns_none :
    extract_text_from_response PyVal.none = PyVal.none ∧
    (∀ s, extract_text_from_response PyVal.none ≠ PyVal.str s) :=
  ⟨rfl, fun _ h => nomatch h⟩

/-- Claim C10: a dict with a top-level text key but no usable candidates
key falls through to the generic string representation: key lookup of
text happens only inside a candidates structure, and the attribute probe
does not see dict keys. -/
theorem extract_toplevel_text_key_ignored (kvs : List (String × PyVal)) (t : PyVal)
    (_ht : lookupStr kvs "text" = Option.some t)
    (hc : lookupStr kvs "candidates" = Option.none ∨
          ∃ c, lookupStr kvs "candidates" = Option.some c ∧ truthy c = false) :
    extract_text_from_response (PyVal.dict kvs) = PyVal.str (reprPy (PyVal.dict kvs)) ∧
    (t ≠ PyVal.str (reprPy (PyVal.dict kvs)) →
      extract_text_from_response (PyVal.dict kvs) ≠ t) := by
  have hd : dictCandAttempt (PyVal.dict kvs) = Except.ok Option.none := by
    rcases hc with h | ⟨c, hceq, hcf⟩
    · simp [dictCandAttempt, h]
    · simp [dictCandAttempt, hceq, hcf]
  have h1 : extract_text_from_response (PyVal.dict kvs) = PyVal.str (reprPy (PyVal.dict kvs)) :=
    extract_tail_fallback _ rfl rfl (fun v hv => by rw [hd] at hv; cases hv) rfl
  exact ⟨h1, fun hne h => hne (h1 ▸ h).symm⟩

/-- Witness for C10 at a concrete input: the dict with exactly one entry,
a text key. -/
theorem extract_toplevel_text_key_ignored_witness :
    lookupStr [("text", PyVal.str "X")] "text" = Option.some (PyVal.str "X") ∧
    extract_text_from_response (PyVal.dict [("text", PyVal.str "X")]) =
      PyVal.str (reprPy (PyVal.dict [("text", PyVal.str "X")])) :=
  ⟨rfl,
    (extract_toplevel_text_key_ignored [("text", PyVal.str "X")] (PyVal.str "X")
      rfl (Or.inl rfl)).1⟩

/-- Counterexample to Claim C6 as stated: the request body 5 (a JSON
value Flask will hand over for a body of "5") lacks a message field, yet
api_chat does not answer 400: the membership test raises an uncaught
TypeError, so the handler itself produces no response (Flask then emits
its own 500 page). -/
theorem api_chat_nondict_body_raises :
    api_chat ⟨false, true, false⟩ (fun _ => Except.ok (PyVal.str "ok")) (PyVal.int 5) =
      Except.error () ∧
    api_chat ⟨false, true, false⟩ (fun _ => Except.ok (PyVal.str "ok")) (PyVal.int 5) ≠
      Except.ok (400, errBody missingMsg) :=
  ⟨rfl, fun h => nomatch h⟩

/-- Claim C6 (amended: restricted to bodies that are falsy, such as an
absent or empty body, or that are JSON objects; a truthy non-object body
instead escapes as an uncaught TypeError): a falsy body or an object
body without a message key answers 400 with the missing-field error, and
an object body whose message is an empty or whitespace-only string
answers 400 with the empty-message error, before any external call —
the result never depends on the model client argument. -/
theorem api_chat_validation :
    (∀ (cfg : ChatConfig) (gc : PyVal → Except String PyVal) (d : PyVal),
      truthy d = false →
      api_chat cfg gc d = Except.ok (400, errBody missingMsg)) ∧
    (∀ (cfg : ChatConfig) (gc : PyVal → Except String PyVal)
        (kvs : List (String × PyVal)),
      lookupStr kvs "message" = Option.none →
      api_chat cfg gc (PyVal.dict kvs) = Except.ok (400, errBody missingMsg)) ∧
    (∀ (cfg : ChatConfig) (gc : PyVal → Except String PyVal)
        (kvs : List (String × PyVal)) (s : String),
      lookupStr kvs "message" = Option.some (PyVal.str s) →
      stripPy s = "" →
      api_chat cfg gc (PyVal.dict kvs) = Except.ok (400, errBody emptyMsg)) := by
  refine ⟨?_, ?_, ?_⟩
  · intro cfg gc d h
    simp [api_chat, h]
  · intro cfg gc kvs h
    by_cases he : kvs.isEmpty
    · simp [api_chat, truthy, he]
    · simp [api_chat, truthy, he, pyContains, h]
  · intro cfg gc kvs s h hs
    cases kvs with
    | nil => simp [lookupStr] at h
    | cons p rest =>
        simp [api_chat, truthy, pyContains, pyGetItem, h, reprPy, reprAux, hs]

/-- Witness for the amended C6 at concrete inputs: a None body, an
object body without message, and an object body with a whitespace-only
message. -/
theorem api_chat_validation_witness :
    api_chat ⟨true, true, false⟩ (fun _ => Except.error "e") PyVal.none =
      Except.ok (400, errBody missingMsg) ∧
    api_chat ⟨true, true, false⟩ (fun _ => Except.error "e")
        (PyVal.dict [("foo", PyVal.int 1)]) =
      Except.ok (400, errBody missingMsg) ∧
    api_chat ⟨true, true, false⟩ (fun _ => Except.error "e")
        (PyVal.dict [("message", PyVal.str "  ")]) =
      Except.ok (400, errBody emptyMsg) :=
  ⟨api_chat_validation.1 _ _ _ rfl,
   api_chat_validation.2.1 _ _ _ rfl,
   api_chat_validation.2.2 _ _ _ "  " rfl (by decide)⟩

/-- Counterexample to Claim C7 as stated: under mock mode, the message
" " is non-empty, yet the response is 400 with the empty-message error,
not 200: the whitespace-only validation rejects it before the mock
branch. -/
theorem api_chat_mock_whitespace_400 :
    (" " : String) ≠ "" ∧
    api_chat ⟨true, true, false⟩ (fun _ => Except.error "e")
        (PyVal.dict [("message", PyVal.str " ")]) =
      Except.ok (400, errBody emptyMsg) ∧
    ¬ ∃ v, api_chat ⟨true, true, false⟩ (fun _ => Except.error "e")
        (PyVal.dict [("message", PyVal.str " ")]) = Except.ok (200, v) := by
  refine ⟨by decide, rfl, ?_⟩
  rintro ⟨v, hv⟩
  rw [show api_chat ⟨true, true, false⟩ (fun _ => Except.error "e")
        (PyVal.dict [("message", PyVal.str " ")]) =
      Except.ok (400, errBody emptyMsg) from rfl] at hv
  simp at hv

/-- Claim C7 (amended: the message must be non-blank, that is non-empty
after stripping whitespace, since blank messages are rejected with 400
before the mock branch): with mock mode enabled, api_chat on such a
message answers 200 with a reply string containing the submitted
message; the model client argument is universally quantified and the
response does not depend on it, so the client is never invoked. -/
theorem api_chat_mock_reply_contains_message (cfg : ChatConfig)
    (gc : PyVal → Except String PyVal) (s : String)
    (hm : cfg.use_mock = true) (hs : stripPy s ≠ "") :
    api_chat cfg gc (PyVal.dict [("message", PyVal.str s)]) =
      Except.ok (200, replyBody (PyVal.str ("(mock) I received: " ++ s))) ∧
    ∃ pre, "(mock) I received: " ++ s = pre ++ s := by
  have hne : s ≠ "" := fun h => hs (by rw [h]; rfl)
  have hie : s.isEmpty = false := by
    cases hh : s.isEmpty
    · rfl
    · exact absurd ((String.isEmpty_iff s).mp hh) hne
  constructor
  · simp [api_chat, truthy, pyContains, pyGetItem, lookupStr, reprPy, reprAux,
      hm, hie, hs]
  · exact ⟨"(mock) I received: ", rfl⟩

/-- Witness for the amended C7 at a concrete input. -/
theorem api_chat_mock_reply_contains_message_witness :
    api_chat ⟨true, false, true⟩ (fun _ => Except.error "never")
        (PyVal.dict [("message", PyVal.str "hello")]) =
      Except.ok (200, replyBody (PyVal.str ("(mock) I received: " ++ "hello"))) ∧
    ∃ pre, "(mock) I received: " ++ "hello" = pre ++ "hello" :=
  api_chat_mock_reply_contains_message ⟨true, false, true⟩ _ "hello" rfl (by decide)

/-- Claim C8: in the command-line variant, every exception of the model
call is caught by genai_response and replaced by the fixed spoken error
reply, so a model-invocation failure never propagates out of the
handler. -/
theorem genai_response_catches_model_failure
    (gc : PyVal → Except String PyVal) (prompt : PyVal) (e : String)
    (h : gc prompt = Except.error e) :
    genai_response gc prompt =
      PyVal.str "Sorry, I encountered an error processing your request." := by
  simp [genai_response, h]

/-- Witness for C8 at a concrete failing model call. -/
theorem genai_response_catches_model_failure_witness :
    genai_response (fun _ => Except.error "quota exceeded") (PyVal.str "hello") =
      PyVal.str "Sorry, I encountered an error processing your request." :=
  genai_response_catches_model_failure _ (PyVal.str "hello") "quota exceeded" rfl
